import Mathlib

/-!
Verification of the law-simplify-ai document pipeline.

This file gives a shallow embedding of the document-ingestion pipeline
(`supabase/functions/process-document/index.ts`, current version and the
older variant kept in `src/unnamed/part_002`), the chat handler
(`supabase/functions/chat-with-document/index.ts`), and the reprocessing
sweep (`src/utils/reprocessDocuments.ts`), and proves or refutes the
frozen claims about them.

Remote collaborators (database reads/writes, object storage, the LLM
endpoint, `JSON.parse` of the LLM reply) are modelled as oracle inputs in
an environment record; the handlers are pure functions from the
environment to a response together with the ordered list of store
operations they issue.
-/

set_option maxRecDepth 100000

namespace LawSimplify

/-- Document lifecycle status values (`pending`, `processing`, `completed`,
`error`) as stored in the `processing_status` column. -/
inductive ProcessingStatus where
  | pending
  | processing
  | completed
  | error
deriving Repr, DecidableEq

/-- One `{term, explanation}` pair of the `legal_terms` column. -/
structure LegalTerm where
  term : String
  explanation : String
deriving Repr, DecidableEq

/-- The document metadata fields read by the process-document handlers. -/
structure DocMeta where
  original_filename : String
  file_type : String
  file_size : Nat
deriving Repr, DecidableEq

/-! ## String helpers mirroring the JavaScript primitives used -/

/-- JavaScript `haystack.includes(needle)`. -/
def jsIncludes (haystack needle : String) : Bool :=
  decide (needle.data <:+: haystack.data)

/-- JavaScript `s.substring(0, n)`: the first `min n s.length` characters. -/
def jsSubstring (s : String) (n : Nat) : String :=
  String.mk (s.data.take n)

/-- Characters removed by the cleanup
`.replace(/\0/g, '').replace(/[\x00-\x08\x0B\x0C\x0E-\x1F\x7F]/g, '')`:
codes 0-8, 11, 12, 14-31 and 127 (tab, LF and CR are kept). -/
def isStrippedCtrl (c : Char) : Bool :=
  c.toNat ≤ 8 || c.toNat = 11 || c.toNat = 12 ||
    (14 ≤ c.toNat && c.toNat ≤ 31) || c.toNat = 127

/-- JavaScript `s.trim()`: drop leading and trailing whitespace. -/
def jsTrim (s : String) : String :=
  String.mk
    (((s.data.dropWhile Char.isWhitespace).reverse.dropWhile
        Char.isWhitespace).reverse)

/-- The post-extraction cleanup applied by every pipeline version:
remove null bytes and the control characters above, then `.trim()`. -/
def cleanText (s : String) : String :=
  jsTrim (String.mk (s.data.filter (fun c => !isStrippedCtrl c)))

/-! ## Placeholder text of the current process-document version

Source: `supabase/functions/process-document/index.ts`, lines 132-182.
When the cleaned extracted text is falsy or shorter than 50 characters the
handler substitutes a synthetic text block built from the document
metadata. -/

/-- Filename-based document type / expected content detection
(`index.ts` lines 138-157). -/
def documentTypeFor (filename : String) : String × String :=
  let fn := filename.toLower
  if jsIncludes fn "contract" || jsIncludes fn "agreement" then
    ("contract or agreement",
     "contractual obligations, terms, parties, and legal commitments")
  else if jsIncludes fn "policy" || jsIncludes fn "terms" then
    ("policy or terms document",
     "policies, procedures, rules, and regulatory requirements")
  else if jsIncludes fn "lease" || jsIncludes fn "rental" then
    ("lease or rental agreement",
     "rental terms, obligations, property details, and tenant rights")
  else if jsIncludes fn "will" || jsIncludes fn "testament" then
    ("will or testament",
     "inheritance instructions, beneficiaries, and estate distribution")
  else if jsIncludes fn "power" && jsIncludes fn "attorney" then
    ("power of attorney",
     "legal authority delegation, powers granted, and limitations")
  else
    ("legal document", "legal clauses, terms, and conditions")

/-- Fixed tail of the placeholder block (`index.ts` lines 167-181). -/
def placeholderTail : String :=
  ". Based on the document type and filename analysis, this document likely includes important legal provisions that require careful review.\n\nGENERAL LEGAL CONSIDERATIONS:\n- This document establishes legal rights and obligations\n- All parties should understand their responsibilities\n- Professional legal advice is recommended for complex matters\n- Compliance with applicable laws and regulations is essential\n- Important deadlines or time-sensitive requirements may apply\n\nDOCUMENT CHARACTERISTICS:\n- Formal legal language and terminology expected\n- May contain specific clauses and conditions\n- Could include parties\x27 rights and responsibilities\n- May specify dispute resolution procedures\n- Potential financial or legal obligations present"

/-- Part of the current placeholder following the processing date
(`index.ts` lines 166-181). -/
def placeholderSummaryBlock (doc : DocMeta) : String :=
  let dt := documentTypeFor doc.original_filename
  "\n\nCONTENT SUMMARY:\nThis " ++
    (dt.1 ++ (" contains " ++ (dt.2 ++ placeholderTail)))

/-- Part of the current placeholder following the file format line. -/
def placeholderAfterType (doc : DocMeta) (now : String) : String :=
  "\nFile Size: " ++
    (toString doc.file_size ++
      (" bytes\nProcessing Date: " ++ (now ++ placeholderSummaryBlock doc)))

/-- Part of the current placeholder following the filename. -/
def placeholderAfterName (doc : DocMeta) (now : String) : String :=
  "\n\nDocument Type: " ++
    ((documentTypeFor doc.original_filename).1.toUpper ++
      ("\nFile Format: " ++
        (doc.file_type.toUpper ++ placeholderAfterType doc now)))

/-- The synthetic placeholder text of the current version
(`index.ts` lines 159-181); `now` stands for `new Date().toISOString()`. -/
def placeholderText (doc : DocMeta) (now : String) : String :=
  "Legal Document Analysis: " ++
    (doc.original_filename ++ placeholderAfterName doc now)

/-- The extraction stage of the current version (`index.ts` lines 49-182):
the per-file-type extraction is an oracle (`raw = none` models a thrown
extraction error, caught and treated as empty text); its output is
cleaned, and text shorter than 50 characters is replaced by the
placeholder. -/
def extractStage (doc : DocMeta) (raw : Option String) (now : String) : String :=
  let text := cleanText (raw.getD "")
  if text = "" ∨ text.length < 50 then placeholderText doc now else text

/-! ## Placeholder text and extraction stage of the part_002 version

Source: `src/unnamed/part_002`, lines 49-107 (threshold 20). -/

/-- Fixed tail of the part_002 placeholder (`part_002` line 106). -/
def placeholderTailP2 : String :=
  " legal document that has been uploaded to the system. While automatic text extraction was limited due to the document\x27s formatting or encoding, this document is available for legal consultation and analysis. The document may contain important legal information, contracts, agreements, or other legal content that should be reviewed by qualified legal professionals."

/-- Part of the part_002 placeholder following the file type line. -/
def p2AfterType (doc : DocMeta) (now : String) : String :=
  "\nFile size: " ++
    (toString doc.file_size ++
      (" bytes\nUpload date: " ++
        (now ++
          ("\n\nThis is a " ++ (doc.file_type.toUpper ++ placeholderTailP2)))))

/-- Part of the part_002 placeholder following the filename. -/
def p2AfterName (doc : DocMeta) (now : String) : String :=
  "\nFile type: " ++ (doc.file_type ++ p2AfterType doc now)

/-- The synthetic placeholder text of the part_002 version
(`part_002` lines 101-106). -/
def placeholderTextP2 (doc : DocMeta) (now : String) : String :=
  "Legal document uploaded: " ++
    (doc.original_filename ++ p2AfterName doc now)

/-- The extraction stage of the part_002 version (`part_002` lines 49-107):
same catch-to-empty behaviour and cleanup, threshold 20. -/
def extractStageP2 (doc : DocMeta) (raw : Option String) (now : String) : String :=
  let text := cleanText (raw.getD "")
  if text = "" ∨ text.length < 20 then placeholderTextP2 doc now else text

/-! ## Analysis results

`ParsedAnalysis` is the shape of a successfully `JSON.parse`d LLM reply:
each of the four contract fields may be absent. `AnalysisResult` is the
shape persisted after the field-level validation of the current version. -/

/-- A successfully parsed LLM reply; `none` = the JSON field is absent. -/
structure ParsedAnalysis where
  summary : Option String
  keyPoints : Option (List String)
  legalTerms : Option (List LegalTerm)
  warnings : Option (List String)
deriving Repr, DecidableEq

/-- The four analysis fields after validation/fallback. -/
structure AnalysisResult where
  summary : String
  keyPoints : List String
  legalTerms : List LegalTerm
  warnings : List String
deriving Repr, DecidableEq

/-- Fixed tail of the default summary of the current version
(`index.ts` line 266). -/
def defaultSummaryTail : String :=
  ") contains important legal information that requires careful review. Based on the document analysis, this appears to be a professional legal document with significant implications for the parties involved. The document likely establishes legal rights, obligations, and responsibilities that must be understood and followed. Professional legal consultation is recommended to ensure full comprehension of the document\x27s terms and compliance with applicable legal requirements."

/-- Default summary substituted when the parsed summary is absent or
shorter than 100 characters (`index.ts` lines 265-267). -/
def defaultSummary (doc : DocMeta) : String :=
  "This " ++
    (doc.file_type.toUpper ++
      (" legal document (" ++ (doc.original_filename ++ defaultSummaryTail)))

/-- Default key points substituted when `keyPoints` is absent or not an
array (`index.ts` lines 269-277). -/
def defaultKeyPoints (doc : DocMeta) : List String :=
  ["Professional " ++ (doc.file_type.toUpper ++ " legal document requiring review"),
   "Contains legally binding terms and conditions",
   "Establishes rights and obligations for involved parties",
   "May include time-sensitive requirements or deadlines",
   "Professional legal advice recommended for interpretation"]

/-- Default legal terms (`index.ts` lines 279-285). -/
def defaultLegalTermsList : List LegalTerm :=
  [⟨"Legal Document", "A formal document creating legal rights and obligations"⟩,
   ⟨"Terms and Conditions", "Specific rules and requirements that parties must follow"⟩,
   ⟨"Legal Compliance", "Adherence to applicable laws and regulations"⟩]

/-- Default warnings (`index.ts` lines 287-294). -/
def defaultWarningsList : List String :=
  ["Professional legal review strongly recommended",
   "Ensure all parties understand their rights and obligations",
   "Verify compliance with applicable laws and regulations",
   "Check for any deadlines or time-sensitive requirements"]

/-- Field-level validation applied by the current version to a
successfully parsed reply (`index.ts` lines 264-295); in JavaScript an
empty string is falsy, which the `length < 100` test subsumes, and an
empty array is truthy, so a present-but-empty array is kept as is. -/
def validateAnalysis (doc : DocMeta) (p : ParsedAnalysis) : AnalysisResult :=
  { summary :=
      match p.summary with
      | none => defaultSummary doc
      | some s => if s.length < 100 then defaultSummary doc else s
    keyPoints := p.keyPoints.getD (defaultKeyPoints doc)
    legalTerms := p.legalTerms.getD defaultLegalTermsList
    warnings := p.warnings.getD defaultWarningsList }

/-- Filename-based category/terms/warnings selection of the current
parse-failure fallback of the current version (`index.ts` lines 300-331). -/
def fallbackSpecific (filename : String) : String × List LegalTerm × List String :=
  let fn := filename.toLower
  if jsIncludes fn "contract" || jsIncludes fn "agreement" then
    ("contractual agreement",
     [⟨"Contract", "A legally binding agreement between parties"⟩,
      ⟨"Consideration", "Something of value exchanged between parties"⟩,
      ⟨"Performance", "Fulfillment of contractual obligations"⟩],
     ["Review all terms before signing or agreeing",
      "Understand payment obligations and deadlines",
      "Check termination and cancellation clauses"])
  else if jsIncludes fn "lease" || jsIncludes fn "rent" then
    ("lease agreement",
     [⟨"Lease Term", "Duration of the rental agreement"⟩,
      ⟨"Security Deposit", "Money held to cover potential damages"⟩,
      ⟨"Tenant Rights", "Legal protections for renters"⟩],
     ["Understand rent payment schedule and late fees",
      "Review property maintenance responsibilities",
      "Know your rights regarding security deposits"])
  else
    ("legal document", [], [])

/-- Fixed tail of the parse-failure fallback summary of the current version
(`index.ts` line 334). -/
def fallbackSummaryTail : String :=
  "\". As a legal document, it establishes important rights, obligations, and terms that govern the relationship between the involved parties. The document contains legally binding provisions that create enforceable duties and protections under the law. All parties should carefully review the document\x27s contents to understand their responsibilities and rights. Professional legal consultation is recommended to ensure full comprehension of the document\x27s implications and to verify compliance with applicable legal requirements and regulations."

/-- The parse-failure fallback analysis of the current version
(`index.ts` lines 296-355). -/
def fallbackAnalysis (doc : DocMeta) : AnalysisResult :=
  let s := fallbackSpecific doc.original_filename
  let fileType := doc.file_type.toUpper
  { summary :=
      "This " ++
        (fileType ++
          (" file represents a " ++
            (s.1 ++
              (" titled \"" ++
                (doc.original_filename ++ fallbackSummaryTail)))))
    keyPoints :=
      [fileType ++ (" " ++ (s.1 ++ " with legal significance")),
       "Creates binding obligations and rights for parties",
       "Contains terms and conditions that must be followed",
       "May include financial obligations or payments",
       "Professional legal review recommended",
       "Compliance with applicable laws required"]
    legalTerms :=
      if s.2.1.isEmpty then
        [⟨"Legal Document", "A formal document with legal consequences"⟩,
         ⟨"Legal Obligations", "Duties that must be performed under the law"⟩,
         ⟨"Legal Rights", "Entitlements protected by law"⟩]
      else s.2.1
    warnings :=
      if s.2.2.isEmpty then
        ["Professional legal review strongly recommended",
         "Understand all terms before agreeing or signing",
         "Verify compliance with applicable laws",
         "Check for deadlines and time-sensitive requirements"]
      else s.2.2 ++ ["Seek professional legal advice for complex matters"] }

/-- The analysis result used by the current version: validated fields on
parse success, the enhanced fallback on parse failure
(`index.ts` lines 247-355). -/
def analyzeReply (doc : DocMeta) (parsed : Option ParsedAnalysis) : AnalysisResult :=
  match parsed with
  | some p => validateAnalysis doc p
  | none => fallbackAnalysis doc

/-- The parse-failure fallback of the older in-file version
(`index.ts` lines 561-569): the raw reply text becomes the summary and
`legalTerms` is the empty list. -/
def fallbackAnalysisV2 (aiContent : String) : AnalysisResult :=
  { summary := aiContent
    keyPoints := ["Please review the document for important details"]
    legalTerms := []
    warnings := ["Please consult with a legal professional for official advice"] }

/-- Fixed tail of the part_002 parse-failure fallback summary
(`part_002` line 180). -/
def fallbackSummaryTailP2 : String :=
  "). Based on the document type and available content, this appears to be a legal document that may contain important contractual terms, legal obligations, or regulatory information. The document should be reviewed by a qualified legal professional to understand its full implications and ensure compliance with applicable laws and regulations. Key areas to focus on include any rights, responsibilities, deadlines, financial obligations, and dispute resolution procedures that may be outlined in the document."

/-- The parse-failure fallback of the part_002 version
(`part_002` lines 177-200): the raw reply becomes the summary when longer
than 50 characters, otherwise a generic default. -/
def fallbackAnalysisP2 (doc : DocMeta) (aiContent : String) : AnalysisResult :=
  { summary :=
      if 50 < aiContent.length then aiContent
      else
        "This is a " ++
          (doc.file_type.toUpper ++
            (" legal document (" ++
              (doc.original_filename ++ fallbackSummaryTailP2)))
    keyPoints :=
      ["Document Type: " ++ (doc.file_type.toUpper ++ " legal document"),
       "Contains potential legal obligations and rights",
       "May include contractual terms and conditions",
       "Could contain important deadlines or dates",
       "May specify dispute resolution procedures"]
    legalTerms :=
      [⟨"Legal Document", "A formal document with legal significance"⟩,
       ⟨"Contractual Obligations", "Duties and responsibilities outlined in the agreement"⟩,
       ⟨"Legal Rights", "Entitlements and protections under the law"⟩]
    warnings :=
      ["This document requires professional legal review",
       "Ensure all parties understand their obligations",
       "Check for any deadlines or time-sensitive requirements",
       "Verify compliance with applicable laws and regulations"] }

/-! ## Document store updates

A `DocUpdate` mirrors the object literal passed to
`supabase.from("documents").update(...)`: a field is `none` exactly when
the corresponding property is not part of the serialized update (absent
from the object, or `undefined` — `JSON.stringify` drops `undefined`
properties), so the column is left untouched. -/

/-- One update issued against the `documents` table. -/
structure DocUpdate where
  processing_status : Option ProcessingStatus := none
  original_text : Option String := none
  simplified_summary : Option String := none
  key_points : Option (List String) := none
  legal_terms : Option (List LegalTerm) := none
  warnings : Option (List String) := none
deriving Repr, DecidableEq

/-- The update writes at least one of the four analysis fields. -/
def writesAnalysis (u : DocUpdate) : Bool :=
  u.simplified_summary.isSome || u.key_points.isSome ||
    u.legal_terms.isSome || u.warnings.isSome

/-- The update writes all four analysis fields. -/
def writesAllAnalysis (u : DocUpdate) : Bool :=
  u.simplified_summary.isSome && u.key_points.isSome &&
    u.legal_terms.isSome && u.warnings.isSome

/-- The stored columns of one `documents` row that the pipeline touches. -/
structure DocRow where
  processing_status : ProcessingStatus
  original_text : Option String := none
  simplified_summary : Option String := none
  key_points : Option (List String) := none
  legal_terms : Option (List LegalTerm) := none
  warnings : Option (List String) := none
deriving Repr, DecidableEq

/-- Apply one update to a row: present fields overwrite, absent fields are
left unchanged. -/
def applyUpdate (r : DocRow) (u : DocUpdate) : DocRow :=
  { processing_status := u.processing_status.getD r.processing_status
    original_text := match u.original_text with
      | some v => some v
      | none => r.original_text
    simplified_summary := match u.simplified_summary with
      | some v => some v
      | none => r.simplified_summary
    key_points := match u.key_points with
      | some v => some v
      | none => r.key_points
    legal_terms := match u.legal_terms with
      | some v => some v
      | none => r.legal_terms
    warnings := match u.warnings with
      | some v => some v
      | none => r.warnings }

/-- Apply the attempted updates of a run to a row; an update whose flag is
`false` failed at the database and changes nothing. -/
def applyOps (r : DocRow) (ops : List (DocUpdate × Bool)) : DocRow :=
  ops.foldl (fun row ou => if ou.2 then applyUpdate row ou.1 else row) r

/-- The `documents` insert issued at upload time
(`src/pages/DocumentUpload.tsx` lines 99-106): it sets
`processing_status: "processing"` and identity/metadata columns, and no
analysis field. -/
def uploadInsertUpdate : DocUpdate :=
  { processing_status := some ProcessingStatus.processing }

/-! ## The process-document handlers

The environment collects the oracle outcomes of every remote interaction
of one invocation. -/

/-- Oracles for one process-document invocation. -/
structure Env where
  /-- `GOOGLE_API_KEY` is configured. -/
  googleKey : Bool
  /-- Result of the `documents` lookup; `none` = `docError || !document`. -/
  docLookup : Option DocMeta
  /-- The storage download succeeded. -/
  downloadOk : Bool
  /-- Result of the per-file-type text extraction; `none` = it threw. -/
  rawExtract : Option String
  /-- LLM endpoint reply text; `none` = `!response.ok` (e.g. HTTP 500). -/
  llmReply : Option String
  /-- `JSON.parse` outcome on the fence-stripped reply; `none` = it threw. -/
  parsed : Option ParsedAnalysis
  /-- The `updateAnalysis` write succeeded (`updateError` is null). -/
  updateOk : Bool
  /-- The in-`try` error-status write after `updateError` succeeded. -/
  statusUpdOk : Bool
  /-- `new Date().toISOString()` at placeholder-construction time. -/
  now : String
deriving Repr, DecidableEq

/-- Outcome of one handler invocation: the `success` flag of the HTTP response
and the ordered `documents` updates attempted, each with its result. -/
structure RunResult where
  success : Bool
  ops : List (DocUpdate × Bool)
deriving Repr, DecidableEq

/-- Store operations performed by the top-level `catch` block of the
current process-document version (`index.ts` lines 393-404). The block
reads `supabase` and `documentId`, but both are declared with `const`
inside the `try` block and are not in scope in the `catch` block, so
evaluating the update expression throws a `ReferenceError` before any
request is issued; the nested `try/catch` swallows and logs it. The catch
therefore issues no document update. -/
def catchBlockOps : List (DocUpdate × Bool) := []

/-- Store operations performed by the top-level `catch` block of the
part_002 version (`part_002` lines 238-249): the identical out-of-scope
references, hence no update is issued there either. -/
def catchBlockOpsP2 : List (DocUpdate × Bool) := []

/-- The `updateAnalysis` write of the current version
(`index.ts` lines 357-368): one update setting `completed` together with
all four analysis fields and the truncated original text. -/
def completedUpdate (text : String) (ar : AnalysisResult) : DocUpdate :=
  { processing_status := some ProcessingStatus.completed
    original_text := some (jsSubstring text 10000)
    simplified_summary := some ar.summary
    key_points := some ar.keyPoints
    legal_terms := some ar.legalTerms
    warnings := some ar.warnings }

/-- The status-only error update (`processing_status: "error"`). -/
def errorUpdate : DocUpdate :=
  { processing_status := some ProcessingStatus.error }

/-- The current process-document handler
(`supabase/functions/process-document/index.ts`, first version). Every
`throw` lands in the top-level catch, which issues `catchBlockOps` (none,
see there) and returns `success: false`. -/
def processDocument (env : Env) : RunResult :=
  if env.googleKey = false then
    { success := false, ops := catchBlockOps }
  else
    match env.docLookup with
    | none => { success := false, ops := catchBlockOps }
    | some doc =>
      if env.downloadOk = false then
        { success := false, ops := catchBlockOps }
      else
        let text := extractStage doc env.rawExtract env.now
        match env.llmReply with
        | none => { success := false, ops := catchBlockOps }
        | some _aiContent =>
          let ar := analyzeReply doc env.parsed
          let upd := completedUpdate text ar
          if env.updateOk then
            { success := true, ops := [(upd, true)] }
          else
            { success := false,
              ops := [(upd, false), (errorUpdate, env.statusUpdOk)] ++ catchBlockOps }

/-- The `updateAnalysis` write of the part_002 version
(`part_002` lines 202-213). On parse success the parsed fields are
persisted directly: `simplified_summary` is the parsed summary property —
absent if the reply had none — while the three list columns go through
`|| []`. On parse failure the fallback is persisted in full. -/
def completedUpdateP2 (doc : DocMeta) (text : String) (aiContent : String)
    (parsed : Option ParsedAnalysis) : DocUpdate :=
  match parsed with
  | some p =>
    { processing_status := some ProcessingStatus.completed
      original_text := some (jsSubstring text 10000)
      simplified_summary := p.summary
      key_points := some (p.keyPoints.getD [])
      legal_terms := some (p.legalTerms.getD [])
      warnings := some (p.warnings.getD []) }
  | none =>
    let fb := fallbackAnalysisP2 doc aiContent
    { processing_status := some ProcessingStatus.completed
      original_text := some (jsSubstring text 10000)
      simplified_summary := some fb.summary
      key_points := some fb.keyPoints
      legal_terms := some fb.legalTerms
      warnings := some fb.warnings }

/-- The part_002 process-document handler (`src/unnamed/part_002`, first
version; extraction threshold 20, simpler fallback, same catch-block
scoping as the current version). -/
def processDocumentP2 (env : Env) : RunResult :=
  if env.googleKey = false then
    { success := false, ops := catchBlockOpsP2 }
  else
    match env.docLookup with
    | none => { success := false, ops := catchBlockOpsP2 }
    | some doc =>
      if env.downloadOk = false then
        { success := false, ops := catchBlockOpsP2 }
      else
        let text := extractStageP2 doc env.rawExtract env.now
        match env.llmReply with
        | none => { success := false, ops := catchBlockOpsP2 }
        | some aiContent =>
          let upd := completedUpdateP2 doc text aiContent env.parsed
          if env.updateOk then
            { success := true, ops := [(upd, true)] }
          else
            { success := false,
              ops := [(upd, false), (errorUpdate, env.statusUpdOk)] ++ catchBlockOpsP2 }

/-! ## Chat-with-document

Source: `supabase/functions/chat-with-document/index.ts` (and the Gemini
variant in `src/unnamed/part_001`, which runs the same store operations in
the same order). -/

/-- One stored `chat_messages` row. -/
structure ChatMsg where
  session_id : Nat
  role : String
  content : String
  created_at : Nat
deriving Repr, DecidableEq

/-- Comparison used by `.order("created_at", ascending)`. -/
def createdLe (a b : ChatMsg) : Prop :=
  a.created_at ≤ b.created_at

instance : DecidableRel createdLe :=
  fun a b => inferInstanceAs (Decidable (a.created_at ≤ b.created_at))

instance : IsTotal ChatMsg createdLe :=
  ⟨fun a b => Nat.le_total a.created_at b.created_at⟩

instance : IsTrans ChatMsg createdLe :=
  ⟨fun _ _ _ hab hbc => Nat.le_trans hab hbc⟩

/-- The `.eq("session_id", chatSessionId)` filter. -/
def sessionMessages (store : List ChatMsg) (sid : Nat) : List ChatMsg :=
  store.filter (fun m => m.session_id == sid)

/-- The chat-history query (`chat-with-document/index.ts` lines 57-63):
filter by session, order by `created_at` ascending, `limit(20)` — the
limit applies after the ascending order, so it keeps the first (earliest)
20 rows. -/
def chatHistoryQuery (store : List ChatMsg) (sid : Nat) : List ChatMsg :=
  (List.insertionSort createdLe (sessionMessages store sid)).take 20

/-- Modelled from the spec: the window of the most recent 20 messages of
the session, in ascending `created_at` order ("Load prior ChatMessages
for the session ordered ascending, capped at a fixed window (most recent
20)"). Stated only to compare against `chatHistoryQuery`. -/
def mostRecent20 (store : List ChatMsg) (sid : Nat) : List ChatMsg :=
  let s := List.insertionSort createdLe (sessionMessages store sid)
  s.drop (s.length - 20)

/-- Externally visible operations of one chat invocation, in program
order. `deleteMsg`/`updateMsg` never occur in the source; they are present
so that "the user message is never rolled back" is a provable statement
rather than one baked into the event type. -/
inductive ChatEvent where
  | insertSession (title : String)
  | insertMsg (session_id : Nat) (role : String) (content : String)
  | deleteMsg (session_id : Nat)
  | updateMsg (session_id : Nat)
  | llmCall
deriving Repr, DecidableEq

/-- The document fields the chat handler reads. -/
structure ChatDoc where
  title : String
deriving Repr, DecidableEq

/-- Oracles for one chat invocation. -/
structure ChatEnv where
  /-- The LLM API key is configured. -/
  apiKey : Bool
  /-- Result of the `documents` lookup; `none` = not found. -/
  docLookup : Option ChatDoc
  /-- `sessionId` of the request body. -/
  sessionId : Option Nat
  /-- Id returned by the `chat_sessions` insert; `none` = `sessionError`. -/
  newSessionId : Option Nat
  /-- History query rows; `none` = `historyError` (logged only). -/
  historyRows : Option (List ChatMsg)
  /-- LLM reply; `none` = `!response.ok`. -/
  llmReply : Option String
  /-- The assistant-message insert succeeded (`saveError` is null). -/
  saveOk : Bool
  /-- Id of the saved assistant message when the insert succeeds. -/
  savedMessageId : Nat
  /-- The incoming user message text. -/
  message : String
deriving Repr, DecidableEq

/-- Outcome of one chat invocation. -/
structure ChatRun where
  success : Bool
  messageId : Option Nat
  events : List ChatEvent
deriving Repr, DecidableEq

/-- The session id actually used: the `sessionId` of the request when present,
otherwise the id of the freshly inserted session. -/
def resolvedSessionId (env : ChatEnv) : Option Nat :=
  match env.sessionId with
  | some sid => some sid
  | none => env.newSessionId

/-- Tail of the chat handler after the session id is settled
(`chat-with-document/index.ts` lines 57-170): query history (an error is
only logged), insert the user message (its result is not checked), call
the LLM (`!response.ok` throws), insert the assistant reply (a
`saveError` is only logged), and return success. -/
def chatAfterSession (env : ChatEnv) (sid : Nat) (ev0 : List ChatEvent) : ChatRun :=
  let ev1 := ev0 ++ [ChatEvent.insertMsg sid "user" env.message]
  match env.llmReply with
  | none => { success := false, messageId := none, events := ev1 ++ [ChatEvent.llmCall] }
  | some aiMessage =>
    { success := true
      messageId := if env.saveOk then some env.savedMessageId else none
      events := ev1 ++ [ChatEvent.llmCall, ChatEvent.insertMsg sid "assistant" aiMessage] }

/-- The chat handler (`supabase/functions/chat-with-document/index.ts`):
missing key or document, or a failed session insert, throws before any
message is written; afterwards `chatAfterSession` runs. -/
def chatWithDocument (env : ChatEnv) : ChatRun :=
  if env.apiKey = false then
    { success := false, messageId := none, events := [] }
  else
    match env.docLookup with
    | none => { success := false, messageId := none, events := [] }
    | some doc =>
      match env.sessionId with
      | some sid => chatAfterSession env sid []
      | none =>
        match env.newSessionId with
        | none =>
          { success := false, messageId := none
            events := [ChatEvent.insertSession ("Chat about " ++ doc.title)] }
        | some sid =>
          chatAfterSession env sid [ChatEvent.insertSession ("Chat about " ++ doc.title)]

/-! ## The reprocess sweep

Source: `src/utils/reprocessDocuments.ts`. -/

/-- One row of the stuck-document fetch (`.select("id, title")`). -/
structure StuckDoc where
  id : Nat
  title : String
  processing_status : ProcessingStatus
deriving Repr, DecidableEq

/-- The `for (const doc of stuckDocs)` loop: each iteration invokes the
process-document function inside its own `try/catch`; an error result is
logged and a thrown error is caught and logged, so the loop continues
either way. Returns the ids invoked, in order. -/
def sweepLoop (invoke : Nat → Except String String) : List StuckDoc → List Nat
  | [] => []
  | d :: rest =>
    match invoke d.id with
    | Except.ok _ => d.id :: sweepLoop invoke rest
    | Except.error _ => d.id :: sweepLoop invoke rest

/-- `reprocessStuckDocuments` (`reprocessDocuments.ts` lines 3-44): fetch
all documents with `processing_status = "processing"` (a fetch error or an
empty result returns early), then sweep them one at a time. -/
def reprocessStuckDocuments (fetchOk : Bool) (docs : List StuckDoc)
    (invoke : Nat → Except String String) : List Nat :=
  if fetchOk = false then []
  else
    let stuckDocs := docs.filter
      (fun d => d.processing_status == ProcessingStatus.processing)
    if stuckDocs.isEmpty then [] else sweepLoop invoke stuckDocs

/-! ## Helper lemmas -/

theorem str_data_append (a b : String) : (a ++ b).data = a.data ++ b.data := by
  cases a
  cases b
  rfl

theorem str_length_data (s : String) : s.length = s.data.length := by
  cases s
  rfl

theorem str_append_assoc (a b c : String) : a ++ b ++ c = a ++ (b ++ c) := by
  apply String.ext
  rw [str_data_append, str_data_append, str_data_append, str_data_append,
    List.append_assoc]

theorem str_length_append (a b : String) : (a ++ b).length = a.length + b.length := by
  rw [str_length_data, str_length_data, str_length_data, str_data_append,
    List.length_append]

theorem str_ne_empty_of_length_pos {s : String} (h : 0 < s.length) : s ≠ "" := by
  intro he
  subst he
  simp [str_length_data] at h

theorem defaultSummary_def (doc : DocMeta) :
    defaultSummary doc =
      "This " ++
        (doc.file_type.toUpper ++
          (" legal document (" ++ (doc.original_filename ++ defaultSummaryTail))) := rfl

theorem defaultSummary_length (doc : DocMeta) : 100 ≤ (defaultSummary doc).length := by
  rw [defaultSummary_def, str_length_append, str_length_append, str_length_append,
    str_length_append]
  have h : 100 ≤ defaultSummaryTail.length := by decide
  omega

theorem fallbackAnalysis_summary_eq (doc : DocMeta) :
    (fallbackAnalysis doc).summary =
      "This " ++
        (doc.file_type.toUpper ++
          (" file represents a " ++
            ((fallbackSpecific doc.original_filename).1 ++
              (" titled \"" ++
                (doc.original_filename ++ fallbackSummaryTail))))) := rfl

theorem fallbackAnalysis_summary_length (doc : DocMeta) :
    100 ≤ (fallbackAnalysis doc).summary.length := by
  rw [fallbackAnalysis_summary_eq, str_length_append, str_length_append,
    str_length_append, str_length_append, str_length_append, str_length_append]
  have h : 100 ≤ fallbackSummaryTail.length := by decide
  omega

theorem analyzeReply_summary_length (doc : DocMeta) (reply : Option ParsedAnalysis) :
    100 ≤ (analyzeReply doc reply).summary.length := by
  cases reply with
  | none => exact fallbackAnalysis_summary_length doc
  | some p =>
    show 100 ≤ (validateAnalysis doc p).summary.length
    unfold validateAnalysis
    cases p.summary with
    | none => exact defaultSummary_length doc
    | some s =>
      by_cases h : s.length < 100
      · simp only [h, if_true]
        exact defaultSummary_length doc
      · simp only [h, if_false]
        omega

theorem placeholderText_ne_empty (doc : DocMeta) (now : String) :
    placeholderText doc now ≠ "" := by
  apply str_ne_empty_of_length_pos
  show 0 < ("Legal Document Analysis: " ++
    (doc.original_filename ++ placeholderAfterName doc now)).length
  rw [str_length_append]
  have h : 0 < ("Legal Document Analysis: " : String).length := by decide
  omega

theorem placeholderTextP2_ne_empty (doc : DocMeta) (now : String) :
    placeholderTextP2 doc now ≠ "" := by
  apply str_ne_empty_of_length_pos
  show 0 < ("Legal document uploaded: " ++
    (doc.original_filename ++ p2AfterName doc now)).length
  rw [str_length_append]
  have h : 0 < ("Legal document uploaded: " : String).length := by decide
  omega

/-- C3: for every file input — any extraction outcome, including a thrown
extraction error (`raw = none`) — the extraction stage of both pipeline
versions returns non-empty text; whenever the cleaned text is shorter than
the per-version threshold (50 in the current version, 20 in part_002) the
synthetic placeholder is substituted, and that placeholder contains the
original filename, the declared file type (uppercased in the current
`File Format` line of the current version, verbatim in part_002), and the file size. -/
theorem claim3_extraction_total (doc : DocMeta) (raw : Option String) (now : String) :
    (extractStage doc raw now ≠ "" ∧
      ((cleanText (raw.getD "")).length < 50 →
        extractStage doc raw now = placeholderText doc now)) ∧
    (extractStageP2 doc raw now ≠ "" ∧
      ((cleanText (raw.getD "")).length < 20 →
        extractStageP2 doc raw now = placeholderTextP2 doc now)) ∧
    ((∃ a b, placeholderText doc now = a ++ (doc.original_filename ++ b)) ∧
      (∃ a b, placeholderText doc now = a ++ (doc.file_type.toUpper ++ b)) ∧
      (∃ a b, placeholderText doc now = a ++ (toString doc.file_size ++ b))) ∧
    ((∃ a b, placeholderTextP2 doc now = a ++ (doc.original_filename ++ b)) ∧
      (∃ a b, placeholderTextP2 doc now = a ++ (doc.file_type ++ b)) ∧
      (∃ a b, placeholderTextP2 doc now = a ++ (toString doc.file_size ++ b))) := by
  refine ⟨⟨?_, ?_⟩, ⟨?_, ?_⟩, ⟨?_, ?_, ?_⟩, ⟨?_, ?_, ?_⟩⟩
  · show (if cleanText (raw.getD "") = "" ∨ (cleanText (raw.getD "")).length < 50
      then placeholderText doc now else cleanText (raw.getD "")) ≠ ""
    split
    · exact placeholderText_ne_empty doc now
    · next h =>
      push_neg at h
      exact h.1
  · intro hlen
    show (if cleanText (raw.getD "") = "" ∨ (cleanText (raw.getD "")).length < 50
      then placeholderText doc now else cleanText (raw.getD "")) = _
    rw [if_pos (Or.inr hlen)]
  · show (if cleanText (raw.getD "") = "" ∨ (cleanText (raw.getD "")).length < 20
      then placeholderTextP2 doc now else cleanText (raw.getD "")) ≠ ""
    split
    · exact placeholderTextP2_ne_empty doc now
    · next h =>
      push_neg at h
      exact h.1
  · intro hlen
    show (if cleanText (raw.getD "") = "" ∨ (cleanText (raw.getD "")).length < 20
      then placeholderTextP2 doc now else cleanText (raw.getD "")) = _
    rw [if_pos (Or.inr hlen)]
  · exact ⟨"Legal Document Analysis: ", placeholderAfterName doc now, rfl⟩
  · refine ⟨"Legal Document Analysis: " ++
      (doc.original_filename ++
        ("\n\nDocument Type: " ++
          ((documentTypeFor doc.original_filename).1.toUpper ++ "\nFile Format: "))),
      placeholderAfterType doc now, ?_⟩
    simp only [placeholderText, placeholderAfterName, str_append_assoc]
  · refine ⟨"Legal Document Analysis: " ++
      (doc.original_filename ++
        ("\n\nDocument Type: " ++
          ((documentTypeFor doc.original_filename).1.toUpper ++
            ("\nFile Format: " ++ (doc.file_type.toUpper ++ "\nFile Size: "))))),
      " bytes\nProcessing Date: " ++ (now ++ placeholderSummaryBlock doc), ?_⟩
    simp only [placeholderText, placeholderAfterName, placeholderAfterType,
      str_append_assoc]
  · exact ⟨"Legal document uploaded: ", p2AfterName doc now, rfl⟩
  · refine ⟨"Legal document uploaded: " ++
      (doc.original_filename ++ "\nFile type: "), p2AfterType doc now, ?_⟩
    simp only [placeholderTextP2, p2AfterName, str_append_assoc]
  · refine ⟨"Legal document uploaded: " ++
      (doc.original_filename ++
        ("\nFile type: " ++ (doc.file_type ++ "\nFile size: "))),
      " bytes\nUpload date: " ++
        (now ++
          ("\n\nThis is a " ++ (doc.file_type.toUpper ++ placeholderTailP2))), ?_⟩
    simp only [placeholderTextP2, p2AfterName, p2AfterType, str_append_assoc]

/-- Witness for C3: for a concrete file whose extraction throws, both
versions substitute their placeholder. -/
theorem claim3_witness :
    extractStage ⟨"scan.pdf", "pdf", 1234⟩ none "2025-01-01T00:00:00.000Z" =
      placeholderText ⟨"scan.pdf", "pdf", 1234⟩ "2025-01-01T00:00:00.000Z" ∧
    extractStageP2 ⟨"scan.pdf", "pdf", 1234⟩ none "2025-01-01T00:00:00.000Z" =
      placeholderTextP2 ⟨"scan.pdf", "pdf", 1234⟩ "2025-01-01T00:00:00.000Z" :=
  ⟨((claim3_extraction_total ⟨"scan.pdf", "pdf", 1234⟩ none
      "2025-01-01T00:00:00.000Z").1.2 (by decide)),
   ((claim3_extraction_total ⟨"scan.pdf", "pdf", 1234⟩ none
      "2025-01-01T00:00:00.000Z").2.1.2 (by decide))⟩

/-- C10: in the current process-document version, every analysis result —
parsed or fallback — carries a summary of at least 100 characters, and a
successfully parsed summary shorter than 100 characters is discarded in
favour of the fixed generic default summary built from the filename and
file type. -/
theorem claim10_summary_min_length (doc : DocMeta) :
    (∀ reply : Option ParsedAnalysis, 100 ≤ (analyzeReply doc reply).summary.length) ∧
    (∀ p : ParsedAnalysis, ∀ s : String, p.summary = some s → s.length < 100 →
      (analyzeReply doc (some p)).summary = defaultSummary doc) := by
  constructor
  · exact fun reply => analyzeReply_summary_length doc reply
  · intro p s hs hlen
    show (validateAnalysis doc p).summary = defaultSummary doc
    simp only [validateAnalysis]
    rw [hs]
    simp [hlen]

/-- Witness for C10 at a concrete document and short parsed summary. -/
theorem claim10_witness :
    (analyzeReply ⟨"nda.pdf", "pdf", 42⟩
        (some ⟨some "Too short.", none, none, none⟩)).summary =
      defaultSummary ⟨"nda.pdf", "pdf", 42⟩ :=
  (claim10_summary_min_length ⟨"nda.pdf", "pdf", 42⟩).2
    ⟨some "Too short.", none, none, none⟩ "Too short." rfl (by decide)

/-- C2 fails as stated: a reply that parses successfully with
present-but-empty arrays is persisted with empty `keyPoints`,
`legalTerms` and `warnings` — in JavaScript an empty array is truthy and
passes `Array.isArray`, so no default is substituted
(`index.ts` lines 269-294). -/
theorem claim2_counterexample :
    (analyzeReply ⟨"contract.pdf", "pdf", 100⟩
        (some ⟨none, some [], some [], some []⟩)).keyPoints = [] ∧
    (analyzeReply ⟨"contract.pdf", "pdf", 100⟩
        (some ⟨none, some [], some [], some []⟩)).legalTerms = [] ∧
    (analyzeReply ⟨"contract.pdf", "pdf", 100⟩
        (some ⟨none, some [], some [], some []⟩)).warnings = [] :=
  ⟨rfl, rfl, rfl⟩

theorem fallbackAnalysis_keyPoints_eq (doc : DocMeta) :
    (fallbackAnalysis doc).keyPoints =
      [doc.file_type.toUpper ++
        (" " ++ ((fallbackSpecific doc.original_filename).1 ++ " with legal significance")),
       "Creates binding obligations and rights for parties",
       "Contains terms and conditions that must be followed",
       "May include financial obligations or payments",
       "Professional legal review recommended",
       "Compliance with applicable laws required"] := rfl

theorem fallbackAnalysis_legalTerms_ne_nil (doc : DocMeta) :
    (fallbackAnalysis doc).legalTerms ≠ [] := by
  show (if (fallbackSpecific doc.original_filename).2.1.isEmpty then _
    else (fallbackSpecific doc.original_filename).2.1) ≠ []
  split
  · simp
  · next h =>
    intro hnil
    rw [hnil] at h
    simp at h

theorem fallbackAnalysis_warnings_ne_nil (doc : DocMeta) :
    (fallbackAnalysis doc).warnings ≠ [] := by
  show (if (fallbackSpecific doc.original_filename).2.2.isEmpty then _
    else (fallbackSpecific doc.original_filename).2.2 ++
      ["Seek professional legal advice for complex matters"]) ≠ []
  split
  · simp
  · simp

/-- C2 amended: the persisted analysis always has all four fields present
as values of the right shape, the summary is never empty, and the only way
one of the three sequences is empty is that the reply parsed successfully
and explicitly contained that field as an empty array (parse failure and
absent fields always yield non-empty defaults). The older in-file
parse-failure fallback of the older version, however, uses an empty `legalTerms`
list. -/
theorem claim2_amended (doc : DocMeta) (reply : Option ParsedAnalysis) :
    (analyzeReply doc reply).summary ≠ "" ∧
    ((analyzeReply doc reply).keyPoints = [] →
      ∃ p, reply = some p ∧ p.keyPoints = some []) ∧
    ((analyzeReply doc reply).legalTerms = [] →
      ∃ p, reply = some p ∧ p.legalTerms = some []) ∧
    ((analyzeReply doc reply).warnings = [] →
      ∃ p, reply = some p ∧ p.warnings = some []) ∧
    (∀ s, (fallbackAnalysisV2 s).legalTerms = []) := by
  refine ⟨?_, ?_, ?_, ?_, fun s => rfl⟩
  · refine str_ne_empty_of_length_pos ?_
    have h := analyzeReply_summary_length doc reply
    omega
  · intro h
    cases reply with
    | none =>
      rw [show analyzeReply doc none = fallbackAnalysis doc from rfl,
        fallbackAnalysis_keyPoints_eq] at h
      exact absurd h (by simp)
    | some p =>
      refine ⟨p, rfl, ?_⟩
      rw [show (analyzeReply doc (some p)).keyPoints =
        p.keyPoints.getD (defaultKeyPoints doc) from rfl] at h
      cases hk : p.keyPoints with
      | none =>
        rw [hk] at h
        simp [defaultKeyPoints] at h
      | some l =>
        rw [hk] at h
        simp only [Option.getD_some] at h
        rw [h]
  · intro h
    cases reply with
    | none => exact absurd h (fallbackAnalysis_legalTerms_ne_nil doc)
    | some p =>
      refine ⟨p, rfl, ?_⟩
      rw [show (analyzeReply doc (some p)).legalTerms =
        p.legalTerms.getD defaultLegalTermsList from rfl] at h
      cases hk : p.legalTerms with
      | none =>
        rw [hk] at h
        simp [defaultLegalTermsList] at h
      | some l =>
        rw [hk] at h
        simp only [Option.getD_some] at h
        rw [h]
  · intro h
    cases reply with
    | none => exact absurd h (fallbackAnalysis_warnings_ne_nil doc)
    | some p =>
      refine ⟨p, rfl, ?_⟩
      rw [show (analyzeReply doc (some p)).warnings =
        p.warnings.getD defaultWarningsList from rfl] at h
      cases hk : p.warnings with
      | none =>
        rw [hk] at h
        simp [defaultWarningsList] at h
      | some l =>
        rw [hk] at h
        simp only [Option.getD_some] at h
        rw [h]

/-- Witness for C2 at a concrete parsed reply with an empty array. -/
theorem claim2_amended_witness :
    ∃ p, (some ⟨none, some [], some [], some []⟩ : Option ParsedAnalysis) = some p ∧
      p.keyPoints = some [] :=
  (claim2_amended ⟨"a.txt", "txt", 1⟩ (some ⟨none, some [], some [], some []⟩)).2.1 rfl

/-- C1 fails on the code: at the failing input — document loaded, then the
LLM endpoint returns a non-success status — the handler returns a failure
response, but the best-effort error update never reaches the store: the
catch block reads `supabase` and `documentId`, which are `const`-declared
inside the `try` block and out of scope in the catch, so the update
expression throws a `ReferenceError` that the nested catch swallows
(`index.ts` lines 393-404). The stored status therefore remains
`processing` instead of becoming `error` (spec Scenario C). -/
theorem claim1_llm_failure_leaves_processing :
    (processDocument ⟨true, some ⟨"lease.pdf", "pdf", 2048⟩, true,
        some "This lease agreement binds landlord and tenant for one year.",
        none, none, true, true, "2025-01-01T00:00:00.000Z"⟩).success = false ∧
    (processDocument ⟨true, some ⟨"lease.pdf", "pdf", 2048⟩, true,
        some "This lease agreement binds landlord and tenant for one year.",
        none, none, true, true, "2025-01-01T00:00:00.000Z"⟩).ops = [] ∧
    (applyOps { processing_status := ProcessingStatus.processing }
        (processDocument ⟨true, some ⟨"lease.pdf", "pdf", 2048⟩, true,
          some "This lease agreement binds landlord and tenant for one year.",
          none, none, true, true, "2025-01-01T00:00:00.000Z"⟩).ops).processing_status =
      ProcessingStatus.processing :=
  ⟨rfl, rfl, rfl⟩

theorem processDocument_ops_shape (env : Env) :
    (processDocument env).ops.map Prod.fst = [] ∨
    (∃ t a, (processDocument env).ops.map Prod.fst = [completedUpdate t a]) ∨
    (∃ t a, (processDocument env).ops.map Prod.fst =
      [completedUpdate t a, errorUpdate]) := by
  obtain ⟨gk, dl, dn, re, lr, pa, uo, so, nw⟩ := env
  cases gk
  · exact Or.inl rfl
  · cases dl with
    | none => exact Or.inl rfl
    | some doc =>
      cases dn
      · exact Or.inl rfl
      · cases lr with
        | none => exact Or.inl rfl
        | some ai =>
          cases uo
          · exact Or.inr (Or.inr ⟨_, _, rfl⟩)
          · exact Or.inr (Or.inl ⟨_, _, rfl⟩)

theorem processDocumentP2_ops_shape (env : Env) :
    (processDocumentP2 env).ops.map Prod.fst = [] ∨
    (∃ d t ai p, (processDocumentP2 env).ops.map Prod.fst =
      [completedUpdateP2 d t ai p]) ∨
    (∃ d t ai p, (processDocumentP2 env).ops.map Prod.fst =
      [completedUpdateP2 d t ai p, errorUpdate]) := by
  obtain ⟨gk, dl, dn, re, lr, pa, uo, so, nw⟩ := env
  cases gk
  · exact Or.inl rfl
  · cases dl with
    | none => exact Or.inl rfl
    | some doc =>
      cases dn
      · exact Or.inl rfl
      · cases lr with
        | none => exact Or.inl rfl
        | some ai =>
          cases uo
          · exact Or.inr (Or.inr ⟨_, _, _, _, rfl⟩)
          · exact Or.inr (Or.inl ⟨_, _, _, _, rfl⟩)

theorem completedUpdateP2_status (d : DocMeta) (t ai : String)
    (p : Option ParsedAnalysis) :
    (completedUpdateP2 d t ai p).processing_status =
      some ProcessingStatus.completed := by
  cases p <;> rfl

/-- C4 fails as stated in the part_002 version: a reply that parses
successfully but lacks a `summary` property yields a completed update that
writes `key_points`, `legal_terms` and `warnings` (via `|| []`) without
writing `simplified_summary` — `JSON.stringify` drops the `undefined`
property, so the column is left untouched while the others are set
(`part_002` lines 202-213). The analysis fields are therefore not always
written together. -/
theorem claim4_counterexample :
    (processDocumentP2 ⟨true, some ⟨"doc.pdf", "pdf", 5⟩, true,
        some "This agreement is binding on both parties.", some "reply text",
        some ⟨none, none, none, none⟩, true, true, "2025-01-01"⟩).ops =
      [({ processing_status := some ProcessingStatus.completed,
          original_text := some "This agreement is binding on both parties.",
          simplified_summary := none,
          key_points := some [],
          legal_terms := some [],
          warnings := some [] }, true)] ∧
    writesAnalysis
      { processing_status := some ProcessingStatus.completed,
        original_text := some "This agreement is binding on both parties.",
        simplified_summary := none,
        key_points := some [],
        legal_terms := some [],
        warnings := some [] } = true ∧
    writesAllAnalysis
      { processing_status := some ProcessingStatus.completed,
        original_text := some "This agreement is binding on both parties.",
        simplified_summary := none,
        key_points := some [],
        legal_terms := some [],
        warnings := some [] } = false := by
  refine ⟨?_, rfl, rfl⟩
  decide

/-- C4 amended: analysis fields are only ever written by the single update
that simultaneously sets `completed`, and error-path updates touch only
`processing_status`; in the current version the completed update always
writes all four analysis fields together, while in the part_002 version a
parsed reply lacking `summary` writes only the other three (see the
counterexample). The upload-time insert sets `processing` and no analysis
field. -/
theorem claim4_amended (env : Env) :
    (∀ u ∈ (processDocument env).ops.map Prod.fst,
      (writesAnalysis u = true →
        u.processing_status = some ProcessingStatus.completed ∧
          writesAllAnalysis u = true) ∧
      (u.processing_status = some ProcessingStatus.error →
        writesAnalysis u = false ∧ u.original_text = none)) ∧
    (∀ u ∈ (processDocumentP2 env).ops.map Prod.fst,
      (writesAnalysis u = true →
        u.processing_status = some ProcessingStatus.completed) ∧
      (u.processing_status = some ProcessingStatus.error →
        writesAnalysis u = false ∧ u.original_text = none)) ∧
    (writesAnalysis uploadInsertUpdate = false ∧
      uploadInsertUpdate.processing_status = some ProcessingStatus.processing) := by
  refine ⟨?_, ?_, ⟨rfl, rfl⟩⟩
  · intro u hu
    rcases processDocument_ops_shape env with h | ⟨t, a, h⟩ | ⟨t, a, h⟩ <;>
      rw [h] at hu
    · simp at hu
    · simp only [List.mem_singleton] at hu
      subst hu
      exact ⟨fun _ => ⟨rfl, rfl⟩, fun hc => by simp [completedUpdate] at hc⟩
    · simp only [List.mem_cons, List.mem_singleton, List.not_mem_nil, or_false] at hu
      rcases hu with hu | hu <;> subst hu
      · exact ⟨fun _ => ⟨rfl, rfl⟩, fun hc => by simp [completedUpdate] at hc⟩
      · exact ⟨fun hw => by simp [writesAnalysis, errorUpdate] at hw,
          fun _ => ⟨rfl, rfl⟩⟩
  · intro u hu
    rcases processDocumentP2_ops_shape env with h | ⟨d, t, ai, p, h⟩ | ⟨d, t, ai, p, h⟩ <;>
      rw [h] at hu
    · simp at hu
    · simp only [List.mem_singleton] at hu
      subst hu
      refine ⟨fun _ => completedUpdateP2_status d t ai p, fun hc => ?_⟩
      rw [completedUpdateP2_status] at hc
      simp at hc
    · simp only [List.mem_cons, List.mem_singleton, List.not_mem_nil, or_false] at hu
      rcases hu with hu | hu <;> subst hu
      · refine ⟨fun _ => completedUpdateP2_status d t ai p, fun hc => ?_⟩
        rw [completedUpdateP2_status] at hc
        simp at hc
      · exact ⟨fun hw => by simp [writesAnalysis, errorUpdate] at hw,
          fun _ => ⟨rfl, rfl⟩⟩

/-- Witness for C4 at a concrete successful run of the current version. -/
theorem claim4_witness :
    (completedUpdate (extractStage ⟨"w.txt", "txt", 9⟩
        (some "A plain text agreement describing duties of both sides here.")
        "2025-01-01")
      (analyzeReply ⟨"w.txt", "txt", 9⟩ none)).processing_status =
      some ProcessingStatus.completed ∧
    writesAllAnalysis
      (completedUpdate (extractStage ⟨"w.txt", "txt", 9⟩
          (some "A plain text agreement describing duties of both sides here.")
          "2025-01-01")
        (analyzeReply ⟨"w.txt", "txt", 9⟩ none)) = true :=
  ((claim4_amended ⟨true, some ⟨"w.txt", "txt", 9⟩, true,
      some "A plain text agreement describing duties of both sides here.",
      some "not json", none, true, true, "2025-01-01"⟩).1 _
    (by simp [processDocument, List.mem_singleton])).1 rfl

/-- C9: what the pipeline stores as `original_text` is
`text.substring(0, 10000)`: exactly 10,000 characters when the extracted
text is longer, the whole text otherwise; the only successful path of
either process-document version issues exactly the one completed update
carrying that truncation. -/
theorem claim9_original_text_truncation :
    (∀ s : String,
      (10000 < s.length → (jsSubstring s 10000).length = 10000) ∧
      (s.length ≤ 10000 → jsSubstring s 10000 = s)) ∧
    (∀ t : String, ∀ a : AnalysisResult,
      (completedUpdate t a).original_text = some (jsSubstring t 10000)) ∧
    (∀ d : DocMeta, ∀ t ai : String, ∀ p : Option ParsedAnalysis,
      (completedUpdateP2 d t ai p).original_text = some (jsSubstring t 10000)) ∧
    (∀ env : Env, ∀ doc : DocMeta, env.docLookup = some doc →
      (processDocument env).success = true →
      (processDocument env).ops =
        [(completedUpdate (extractStage doc env.rawExtract env.now)
            (analyzeReply doc env.parsed), true)]) ∧
    (∀ env : Env, ∀ doc : DocMeta, env.docLookup = some doc →
      (processDocumentP2 env).success = true →
      ∃ ai, env.llmReply = some ai ∧
        (processDocumentP2 env).ops =
          [(completedUpdateP2 doc (extractStageP2 doc env.rawExtract env.now) ai
              env.parsed, true)]) := by
  refine ⟨?_, fun t a => rfl, ?_, ?_, ?_⟩
  · intro s
    constructor
    · intro h
      rw [str_length_data] at h
      show (s.data.take 10000).length = 10000
      rw [List.length_take]
      exact Nat.min_eq_left (by omega)
    · intro h
      rw [str_length_data] at h
      rw [jsSubstring, List.take_of_length_le h]
  · intro d t ai p
    cases p <;> rfl
  · intro env doc hdoc hsucc
    obtain ⟨gk, dl, dn, re, lr, pa, uo, so, nw⟩ := env
    cases gk
    · simp [processDocument] at hsucc
    · cases dl with
      | none => simp at hdoc
      | some d =>
        simp only [Option.some.injEq] at hdoc
        subst hdoc
        cases dn
        · simp [processDocument] at hsucc
        · cases lr with
          | none => simp [processDocument] at hsucc
          | some ai =>
            cases uo
            · simp [processDocument] at hsucc
            · rfl
  · intro env doc hdoc hsucc
    obtain ⟨gk, dl, dn, re, lr, pa, uo, so, nw⟩ := env
    cases gk
    · simp [processDocumentP2] at hsucc
    · cases dl with
      | none => simp at hdoc
      | some d =>
        simp only [Option.some.injEq] at hdoc
        subst hdoc
        cases dn
        · simp [processDocumentP2] at hsucc
        · cases lr with
          | none => simp [processDocumentP2] at hsucc
          | some ai =>
            cases uo
            · simp [processDocumentP2] at hsucc
            · exact ⟨ai, rfl, rfl⟩

/-- Witness for C9: truncation at both sides of the boundary and the
single completed update of a concrete successful run. -/
theorem claim9_witness :
    (jsSubstring (String.mk (List.replicate 10001 'a')) 10000).length = 10000 ∧
    jsSubstring "short text" 10000 = "short text" ∧
    (processDocument ⟨true, some ⟨"w.txt", "txt", 9⟩, true,
        some "A plain text agreement describing duties of both sides here.",
        some "not json", none, true, true, "2025-01-01"⟩).ops =
      [(completedUpdate
          (extractStage ⟨"w.txt", "txt", 9⟩
            (some "A plain text agreement describing duties of both sides here.")
            "2025-01-01")
          (analyzeReply ⟨"w.txt", "txt", 9⟩ none), true)] :=
  ⟨((claim9_original_text_truncation.1 (String.mk (List.replicate 10001 'a'))).1
      (by
        show 10000 < (List.replicate 10001 'a').length
        rw [List.length_replicate]
        omega)),
   ((claim9_original_text_truncation.1 "short text").2 (by decide)),
   (claim9_original_text_truncation.2.2.2.1 _ ⟨"w.txt", "txt", 9⟩ rfl rfl)⟩

/-- A 21-message session used to separate the two history windows. -/
def store21 : List ChatMsg :=
  (List.range 21).map (fun i => ⟨1, "user", "m", i⟩)

/-- C5 fails as stated: `.order("created_at", ascending).limit(20)`
keeps the first (earliest) 20 rows of the ascending order, not the most
recent 20. With 21 messages the query returns the earliest message
(`created_at = 0`) and drops the newest, while the most-recent-20 window
contains the newest and drops the earliest. -/
theorem claim5_counterexample :
    chatHistoryQuery store21 1 ≠ mostRecent20 store21 1 ∧
    (⟨1, "user", "m", 0⟩ : ChatMsg) ∈ chatHistoryQuery store21 1 ∧
    (⟨1, "user", "m", 0⟩ : ChatMsg) ∉ mostRecent20 store21 1 := by
  decide

/-- C5 amended: the prior messages included in the LLM context are exactly
the messages of the session ordered by `created_at` ascending and capped at the
first (earliest) 20 of that order: every returned message belongs to the
session, the result is ascending, its length is `min 20` of the total
message count, and it is an initial segment of the full ascending ordering (which is
a permutation of the messages of the session). -/
theorem claim5_amended (store : List ChatMsg) (sid : Nat) :
    (∀ m ∈ chatHistoryQuery store sid, m.session_id = sid) ∧
    List.Sorted createdLe (chatHistoryQuery store sid) ∧
    (chatHistoryQuery store sid).length = min 20 (sessionMessages store sid).length ∧
    (∃ rest, chatHistoryQuery store sid ++ rest =
      List.insertionSort createdLe (sessionMessages store sid)) ∧
    (List.insertionSort createdLe (sessionMessages store sid)).Perm
      (sessionMessages store sid) := by
  refine ⟨?_, ?_, ?_, ⟨_, List.take_append_drop 20 _⟩, List.perm_insertionSort _ _⟩
  · intro m hm
    have h1 : m ∈ List.insertionSort createdLe (sessionMessages store sid) :=
      List.mem_of_mem_take hm
    have h2 : m ∈ sessionMessages store sid :=
      (List.perm_insertionSort createdLe (sessionMessages store sid)).mem_iff.mp h1
    have h3 := (List.mem_filter.mp h2).2
    simpa using h3
  · exact List.Pairwise.sublist (List.take_sublist 20 _)
      (List.sorted_insertionSort createdLe (sessionMessages store sid))
  · rw [chatHistoryQuery, List.length_take,
      (List.perm_insertionSort createdLe (sessionMessages store sid)).length_eq]

/-- Witness for C5: the earliest message of the 21-message session is in
the query result and belongs to session 1. -/
theorem claim5_witness : (⟨1, "user", "m", 0⟩ : ChatMsg).session_id = 1 :=
  (claim5_amended store21 1).1 ⟨1, "user", "m", 0⟩ (by decide)

theorem chatAfterSession_events_eq (env : ChatEnv) (sid : Nat) (pre : List ChatEvent) :
    (chatAfterSession env sid pre).events =
      pre ++ (ChatEvent.insertMsg sid "user" env.message ::
        (match env.llmReply with
         | none => [ChatEvent.llmCall]
         | some ai => [ChatEvent.llmCall, ChatEvent.insertMsg sid "assistant" ai])) := by
  cases h : env.llmReply <;> simp [chatAfterSession, h]

/-- C6: in every invocation that reaches the message-persistence step the
user message is inserted strictly before the LLM call (both versions run
the insert at lines 69-76 and the fetch at lines 124-142), and no event of
any invocation deletes or modifies a chat message — the user message is
never rolled back. -/
theorem claim6_user_before_llm (env : ChatEnv) :
    (ChatEvent.llmCall ∈ (chatWithDocument env).events →
      ∃ sid, resolvedSessionId env = some sid ∧
        List.Sublist
          [ChatEvent.insertMsg sid "user" env.message, ChatEvent.llmCall]
          (chatWithDocument env).events) ∧
    (∀ e ∈ (chatWithDocument env).events,
      (∀ s, e ≠ ChatEvent.deleteMsg s) ∧ (∀ s, e ≠ ChatEvent.updateMsg s)) := by
  obtain ⟨ak, dl, sid0, nsid, hist, lr, sv, smid, msg⟩ := env
  cases ak
  · exact ⟨fun h => absurd h (by simp [chatWithDocument]),
      fun e he => absurd he (by simp [chatWithDocument])⟩
  · cases dl with
    | none =>
      exact ⟨fun h => absurd h (by simp [chatWithDocument]),
        fun e he => absurd he (by simp [chatWithDocument])⟩
    | some d =>
      cases sid0 with
      | some sid =>
        cases lr with
        | none =>
          refine ⟨fun _ => ⟨sid, rfl, List.Sublist.refl _⟩, fun e he => ?_⟩
          simp [chatWithDocument, chatAfterSession] at he
          rcases he with rfl | rfl <;> simp
        | some ai =>
          refine ⟨fun _ => ⟨sid, rfl,
            List.Sublist.cons₂ _ (List.Sublist.cons₂ _
              (List.Sublist.cons _ List.Sublist.slnil))⟩, fun e he => ?_⟩
          simp [chatWithDocument, chatAfterSession] at he
          rcases he with rfl | rfl | rfl <;> simp
      | none =>
        cases nsid with
        | none =>
          refine ⟨fun h => absurd h (by simp [chatWithDocument]), fun e he => ?_⟩
          simp [chatWithDocument] at he
          subst he
          simp
        | some sid =>
          cases lr with
          | none =>
            refine ⟨fun _ => ⟨sid, rfl,
              List.Sublist.cons _ (List.Sublist.refl _)⟩, fun e he => ?_⟩
            simp [chatWithDocument, chatAfterSession] at he
            rcases he with rfl | rfl | rfl <;> simp
          | some ai =>
            refine ⟨fun _ => ⟨sid, rfl,
              List.Sublist.cons _ (List.Sublist.cons₂ _ (List.Sublist.cons₂ _
                (List.Sublist.cons _ List.Sublist.slnil)))⟩, fun e he => ?_⟩
            simp [chatWithDocument, chatAfterSession] at he
            rcases he with rfl | rfl | rfl | rfl <;> simp

/-- Witness for C6 at a concrete invocation with an existing session. -/
theorem claim6_witness :
    ∃ sid, resolvedSessionId
        ⟨true, some ⟨"Lease"⟩, some 7, none, none, some "It means rent is due.",
          true, 99, "What does clause 3 mean?"⟩ = some sid ∧
      List.Sublist
        [ChatEvent.insertMsg sid "user" "What does clause 3 mean?",
          ChatEvent.llmCall]
        (chatWithDocument
          ⟨true, some ⟨"Lease"⟩, some 7, none, none, some "It means rent is due.",
            true, 99, "What does clause 3 mean?"⟩).events :=
  (claim6_user_before_llm
    ⟨true, some ⟨"Lease"⟩, some 7, none, none, some "It means rent is due.",
      true, 99, "What does clause 3 mean?"⟩).1 (by decide)

/-- C7 fails as stated: when the assistant-reply insert fails
(`saveError`), the handler only logs it and still returns the success
response, with `messageId` absent
(`chat-with-document/index.ts` lines 158-170). -/
theorem claim7_counterexample :
    ChatEvent.insertMsg 7 "user" "What does clause 3 mean?" ∈
      (chatWithDocument
        ⟨true, some ⟨"Lease"⟩, some 7, none, none, some "It means rent is due.",
          false, 99, "What does clause 3 mean?"⟩).events ∧
    (chatWithDocument
      ⟨true, some ⟨"Lease"⟩, some 7, none, none, some "It means rent is due.",
        false, 99, "What does clause 3 mean?"⟩).success = true ∧
    (chatWithDocument
      ⟨true, some ⟨"Lease"⟩, some 7, none, none, some "It means rent is due.",
        false, 99, "What does clause 3 mean?"⟩).messageId = none := by
  decide

/-- C7 amended: after the user message is persisted, a step failure that
throws — the LLM call returning non-success — yields the generic error
response (`success = false`); but a failure to persist the assistant reply
is only logged: the invocation still returns `success = true`, merely with
no `messageId`. -/
theorem claim7_amended (env : ChatEnv) (sid : Nat)
    (hper : ChatEvent.insertMsg sid "user" env.message ∈
      (chatWithDocument env).events) :
    (env.llmReply = none → (chatWithDocument env).success = false) ∧
    (∀ ai, env.llmReply = some ai →
      (chatWithDocument env).success = true ∧
      (env.saveOk = false → (chatWithDocument env).messageId = none)) := by
  obtain ⟨ak, dl, sid0, nsid, hist, lr, sv, smid, msg⟩ := env
  cases ak
  · simp [chatWithDocument] at hper
  · cases dl with
    | none => simp [chatWithDocument] at hper
    | some d =>
      cases sid0 with
      | some sid1 =>
        cases lr with
        | none => exact ⟨fun _ => rfl, fun ai hai => by simp at hai⟩
        | some ai =>
          refine ⟨fun hc => by simp at hc, fun ai2 hai => ?_⟩
          cases hai
          refine ⟨rfl, fun hsv => ?_⟩
          subst hsv
          rfl
      | none =>
        cases nsid with
        | none => simp [chatWithDocument] at hper
        | some sid1 =>
          cases lr with
          | none => exact ⟨fun _ => rfl, fun ai hai => by simp at hai⟩
          | some ai =>
            refine ⟨fun hc => by simp at hc, fun ai2 hai => ?_⟩
            cases hai
            refine ⟨rfl, fun hsv => ?_⟩
            subst hsv
            rfl

/-- Witness for C7 at a concrete invocation whose LLM call fails after the
user message is persisted. -/
theorem claim7_witness :
    (chatWithDocument
      ⟨true, some ⟨"Lease"⟩, some 7, none, none, none, true, 99,
        "What does clause 3 mean?"⟩).success = false :=
  (claim7_amended
    ⟨true, some ⟨"Lease"⟩, some 7, none, none, none, true, 99,
      "What does clause 3 mean?"⟩ 7 (by decide)).1 rfl

theorem sweepLoop_ids (invoke : Nat → Except String String) (l : List StuckDoc) :
    sweepLoop invoke l = l.map (fun d => d.id) := by
  induction l with
  | nil => rfl
  | cons d rest ih =>
    show (match invoke d.id with
      | Except.ok _ => d.id :: sweepLoop invoke rest
      | Except.error _ => d.id :: sweepLoop invoke rest) = _
    cases invoke d.id <;> simp [ih]

/-- C8: with the stuck-document fetch succeeding, the sweep invokes the
pipeline exactly once per document whose `processing_status` is
`processing`, in list order, for every possible per-document outcome
(error results and thrown errors included) — so the failure of one document
never prevents the others from being reprocessed; a failed fetch aborts
the sweep with no invocations. -/
theorem claim8_sweep_isolation (docs : List StuckDoc)
    (invoke : Nat → Except String String) :
    reprocessStuckDocuments true docs invoke =
      (docs.filter
        (fun d => d.processing_status == ProcessingStatus.processing)).map
        (fun d => d.id) ∧
    reprocessStuckDocuments false docs invoke = [] := by
  refine ⟨?_, rfl⟩
  show (if (docs.filter
      (fun d => d.processing_status == ProcessingStatus.processing)).isEmpty
    then []
    else sweepLoop invoke (docs.filter
      (fun d => d.processing_status == ProcessingStatus.processing))) = _
  by_cases he : (docs.filter
      (fun d => d.processing_status == ProcessingStatus.processing)).isEmpty
  · rw [if_pos he]
    rw [List.isEmpty_iff] at he
    rw [he]
    rfl
  · rw [if_neg he, sweepLoop_ids]

end LawSimplify
